import Mathlib

/-!
Verification of the workflow in bw_authenticate_sshkeys.py: a script that
fetches SSH key passphrases from a Bitwarden folder and loads the keys into
ssh-agent.  External process invocations (the bw CLI, ssh-add, the
filesystem) are modelled by explicit outcome parameters; the control flow of
the script is embedded as total Lean functions over those outcomes.
-/

namespace BwSsh

/-- The nested login object of a vault item; the password (the SSH key
passphrase) may be null, which Python reads as None. -/
structure Login where
  password : Option String
deriving DecidableEq

/-- A vault item as decoded from the bw CLI list output: an id, a display
name, and a login object. -/
structure VaultItem where
  id : String
  name : String
  login : Login
deriving DecidableEq

/-- The itemid_path_pair mapping: the CSV rows (item id, local path) in file
order.  The Python dict is built by inserting the rows in order, so a later
row with the same id overwrites an earlier one. -/
abbrev KeyMapping := List (String × String)

/-- Dict lookup on the row list: the last row whose first column equals the
id wins, mirroring dict insertion order; none models the KeyError branch. -/
def lookupPath (m : KeyMapping) (id : String) : Option String :=
  m.foldl (fun acc row => if row.1 == id then some row.2 else acc) none

/-- Outcomes of the external world that add_ssh_keys consults: whether a
path exists on disk, and whether the ssh-add invocation for a given
passphrase and path exits zero. -/
structure World where
  fsExists : String → Bool
  importOk : String → String → Bool

/-- The shell command string built at line 136 of the source and handed to
subprocess.run: the passphrase is echoed after a delay into a
pseudo-terminal running ssh-add on the given path. -/
def sshAddCommand (passphrase path : String) : String :=
  "\x7b sleep .8; echo " ++ passphrase ++ "; \x7d | script -q /dev/null ssh-add " ++ path

/-- The stage of the pipeline after the pipe character: the script/ssh-add
invocation.  It is built from the key path alone; the passphrase only ever
enters the stage before the pipe. -/
def sshAddStage (path : String) : String :=
  "script -q /dev/null ssh-add " ++ path

/-- What happens to a single vault item inside the add_ssh_keys loop:
one of the three skip branches, or an ssh-add invocation carrying the
passphrase and path it was given (with its success flag). -/
inductive ItemEvent where
  | pathNotFound (name : String)
  | passphraseNotFound (name : String)
  | keyMissing (path : String)
  | importKey (passphrase : String) (path : String) (ok : Bool)
deriving DecidableEq

/-- The message each branch prints or logs, taken from the print and
logging.warning calls of the loop body; a successful import prints nothing. -/
def ItemEvent.message : ItemEvent → Option String
  | .pathNotFound name => some ("Path for item " ++ name ++ " not found")
  | .passphraseNotFound name => some ("Passphrase not found for " ++ name)
  | .keyMissing path => some ("Private key at " ++ path ++ " does not exist")
  | .importKey _ _ ok =>
      if ok then none else some "Could not add key to the SSH agent"

/-- True when the branch skipped the item or the import failed. -/
def ItemEvent.isSkipOrFailure : ItemEvent → Bool
  | .pathNotFound _ => true
  | .passphraseNotFound _ => true
  | .keyMissing _ => true
  | .importKey _ _ ok => !ok

/-- True exactly when the ssh-add invocation was reached. -/
def ItemEvent.isImport : ItemEvent → Bool
  | .importKey _ _ _ => true
  | _ => false

/-- The body of the add_ssh_keys loop for one item, lines 120 to 142 of the
source: read the passphrase, look the id up in the dict (KeyError prints and
continues), check the passphrase for None, check the file exists, then run
the ssh-add command; a SubprocessError is caught and logged. -/
def processItem (w : World) (itemid_path_pair : KeyMapping) (item : VaultItem) :
    ItemEvent :=
  let passphrase := item.login.password
  match lookupPath itemid_path_pair item.id with
  | none => .pathNotFound item.name
  | some path =>
    match passphrase with
    | none => .passphraseNotFound item.name
    | some pass =>
      if w.fsExists path then
        .importKey pass path (w.importOk pass path)
      else
        .keyMissing path

/-- The add_ssh_keys loop: every branch of the body ends in continue or in a
caught exception, so the loop visits each item in order and emits its event.
The session argument is accepted and unused, as in the source. -/
def add_ssh_keys (w : World) (_session : String) (items : List VaultItem)
    (itemid_path_pair : KeyMapping) : List ItemEvent :=
  match items with
  | [] => []
  | item :: rest =>
      processItem w itemid_path_pair item ::
        add_ssh_keys w _session rest itemid_path_pair

/-- Outcomes of the external calls that get_session can make: the BW_SESSION
environment variable, the exit code of the quiet login check, and the
results of bw --raw login and bw --raw unlock (error models a non-zero exit
raising CalledProcessError, ok carries the captured stdout). -/
structure SessionEnv where
  envSession : Option String
  loginCheckReturncode : Nat
  loginResult : Except Unit String
  unlockResult : Except Unit String

/-- What a run of get_session did and returned: which external calls ran and
the session outcome (error models the CalledProcessError propagating). -/
structure SessionTrace where
  loginChecked : Bool
  loginRan : Bool
  unlockRan : Bool
  result : Except Unit String

/-- get_session, lines 70 to 97 of the source: return BW_SESSION when set;
otherwise run the quiet login check (its exit code is inspected, never
raised), pick login on non-zero and unlock on zero, and return the raw
stdout of that command, raising when it exits non-zero. -/
def get_session (e : SessionEnv) : SessionTrace :=
  match e.envSession with
  | some session => ⟨false, false, false, .ok session⟩
  | none =>
    if e.loginCheckReturncode != 0 then
      ⟨true, true, false, e.loginResult⟩
    else
      ⟨true, false, true, e.unlockResult⟩

/-- lock_bitwarden, lines 145 to 156: runs bw lock with check=True, so a
non-zero exit raises CalledProcessError to the caller. -/
def lock_bitwarden (lockOk : Bool) : Except Unit Unit :=
  if lockOk then .ok () else .error ()

/-- Outcomes of every external interaction of one run of main: the CSV
load (none models the exception branch that prints and exits), the
get_session environment, the bw sync exit, the bw list items call (ok
carries the decoded items), the filesystem and ssh-add outcomes, and the
bw lock exit. -/
structure RunEnv where
  csvRows : Option (List (String × String))
  sessionEnv : SessionEnv
  syncOk : Bool
  listResult : Except Unit (List VaultItem)
  world : World
  lockOk : Bool

/-- folder_items, lines 100 to 113: runs bw list items with check=True and
decodes its stdout; the outcome of that external call. -/
def folder_items (env : RunEnv) : Except Unit (List VaultItem) :=
  env.listResult

/-- How one run of main ended: configAbort is the exit() after a failed CSV
load, ok is normal completion, fatalLogged is a CalledProcessError caught
and logged by the except clause, unhandled is an exception escaping main
(only the lock call in the finally block can do that). -/
inductive Outcome where
  | configAbort
  | ok
  | fatalLogged
  | unhandled
deriving DecidableEq

/-- What one run of main did: which workflow steps ran, the session the
variable held, the key importer events (empty when the loop never ran), how
many times lock_bitwarden was invoked, and how the run ended. -/
structure RunResult where
  loginChecked : Bool
  sessionCmdRan : Bool
  sessionObtained : Option String
  syncAttempted : Bool
  listAttempted : Bool
  addKeysRan : Bool
  importEvents : List ItemEvent
  lockCount : Nat
  outcome : Outcome

/-- The finally block of main, lines 221 to 223: if the session variable is
truthy (a non-empty string), lock_bitwarden runs; an error it raises
escapes main unhandled, replacing whatever outcome the try/except reached. -/
def finallyLock (env : RunEnv) (session : String) (r : RunResult) : RunResult :=
  if session == "" then r
  else
    { r with
      lockCount := r.lockCount + 1
      outcome := match lock_bitwarden env.lockOk with
        | .ok _ => r.outcome
        | .error _ => .unhandled }

/-- main, lines 175 to 225: load the CSV (any exception prints and exits
before any vault interaction); then in a try block get a session, sync,
list the folder items and run add_ssh_keys; a CalledProcessError from any
of these is caught and logged; the finally block locks the vault when the
session variable is truthy. -/
def main (env : RunEnv) : RunResult :=
  match env.csvRows with
  | none =>
      { loginChecked := false, sessionCmdRan := false, sessionObtained := none
        syncAttempted := false, listAttempted := false, addKeysRan := false
        importEvents := [], lockCount := 0, outcome := .configAbort }
  | some rows =>
      let st := get_session env.sessionEnv
      match st.result with
      | .error _ =>
          { loginChecked := st.loginChecked
            sessionCmdRan := st.loginRan || st.unlockRan
            sessionObtained := none
            syncAttempted := false, listAttempted := false, addKeysRan := false
            importEvents := [], lockCount := 0, outcome := .fatalLogged }
      | .ok session =>
          let base : RunResult :=
            { loginChecked := st.loginChecked
              sessionCmdRan := st.loginRan || st.unlockRan
              sessionObtained := some session
              syncAttempted := true, listAttempted := false, addKeysRan := false
              importEvents := [], lockCount := 0, outcome := .fatalLogged }
          if env.syncOk then
            match folder_items env with
            | .error _ =>
                finallyLock env session { base with listAttempted := true }
            | .ok items =>
                finallyLock env session
                  { base with
                    listAttempted := true
                    addKeysRan := true
                    importEvents := add_ssh_keys env.world session items rows
                    outcome := .ok }
          else
            finallyLock env session base

/-! Helper lemmas shared by the claim theorems. -/

theorem add_ssh_keys_length (w : World) (session : String)
    (items : List VaultItem) (m : KeyMapping) :
    (add_ssh_keys w session items m).length = items.length := by
  induction items with
  | nil => rfl
  | cons x xs ih => simp [add_ssh_keys, ih]

theorem add_ssh_keys_get (w : World) (session : String)
    (items : List VaultItem) (m : KeyMapping) (i : Nat) :
    (add_ssh_keys w session items m).get? i =
      (items.get? i).map (processItem w m) := by
  induction items generalizing i with
  | nil => rfl
  | cons x xs ih =>
    cases i with
    | zero => rfl
    | succ n => simpa [add_ssh_keys] using ih n

theorem finallyLock_syncAttempted (env : RunEnv) (session : String)
    (r : RunResult) :
    (finallyLock env session r).syncAttempted = r.syncAttempted := by
  unfold finallyLock
  split <;> rfl

theorem finallyLock_listAttempted (env : RunEnv) (session : String)
    (r : RunResult) :
    (finallyLock env session r).listAttempted = r.listAttempted := by
  unfold finallyLock
  split <;> rfl

theorem finallyLock_addKeysRan (env : RunEnv) (session : String)
    (r : RunResult) :
    (finallyLock env session r).addKeysRan = r.addKeysRan := by
  unfold finallyLock
  split <;> rfl

theorem finallyLock_importEvents (env : RunEnv) (session : String)
    (r : RunResult) :
    (finallyLock env session r).importEvents = r.importEvents := by
  unfold finallyLock
  split <;> rfl

theorem finallyLock_lockCount (env : RunEnv) (session : String) (r : RunResult) :
    (finallyLock env session r).lockCount =
      if session == "" then r.lockCount else r.lockCount + 1 := by
  unfold finallyLock
  split <;> simp_all

theorem finallyLock_outcome (env : RunEnv) (session : String) (r : RunResult) :
    (finallyLock env session r).outcome = r.outcome ∨
      (finallyLock env session r).outcome = .unhandled := by
  unfold finallyLock lock_bitwarden
  split
  · exact .inl rfl
  · by_cases h : env.lockOk <;> simp [h]

/-! The claim theorems. -/

/-- C1: the key importer attempts each item independently: even when the
processing of one item is skipped or its import fails, the events of all
the items before and after it are produced unchanged, so the per-item loop
never aborts the run. -/
theorem c1_loop_never_aborts (w : World) (session : String) (m : KeyMapping)
    (pre : List VaultItem) (item : VaultItem) (post : List VaultItem)
    (_hfail : (processItem w m item).isSkipOrFailure = true) :
    add_ssh_keys w session (pre ++ item :: post) m =
      add_ssh_keys w session pre m ++
        processItem w m item :: add_ssh_keys w session post m := by
  induction pre with
  | nil => rfl
  | cons x xs ih => simp [add_ssh_keys, ih]

/-- Witness for C1: an unmapped middle item is skipped with a path-not-found
event while the surrounding items are still processed. -/
theorem c1_loop_never_aborts_witness :
    (processItem ⟨fun _ => true, fun _ _ => true⟩ [("a", "/k/a"), ("c", "/k/c")]
        ⟨"b", "kb", ⟨some "pw"⟩⟩).isSkipOrFailure = true ∧
    add_ssh_keys ⟨fun _ => true, fun _ _ => true⟩ "s"
        ([⟨"a", "ka", ⟨some "pa"⟩⟩] ++ ⟨"b", "kb", ⟨some "pw"⟩⟩ ::
          [⟨"c", "kc", ⟨some "pc"⟩⟩]) [("a", "/k/a"), ("c", "/k/c")] =
      add_ssh_keys ⟨fun _ => true, fun _ _ => true⟩ "s"
          [⟨"a", "ka", ⟨some "pa"⟩⟩] [("a", "/k/a"), ("c", "/k/c")] ++
        processItem ⟨fun _ => true, fun _ _ => true⟩ [("a", "/k/a"), ("c", "/k/c")]
            ⟨"b", "kb", ⟨some "pw"⟩⟩ ::
          add_ssh_keys ⟨fun _ => true, fun _ _ => true⟩ "s"
            [⟨"c", "kc", ⟨some "pc"⟩⟩] [("a", "/k/a"), ("c", "/k/c")] :=
  ⟨by decide, c1_loop_never_aborts _ _ _ _ _ _ (by decide)⟩

/-- C2 counterexample: at passphrase secret and path /keys/id_rsa, the
string handed to subprocess.run does contain the passphrase as a visible
substring, refuting the claim that it never appears there. -/
theorem c2_counterexample :
    ∃ s t : String,
      sshAddCommand "secret" "/keys/id_rsa" = s ++ "secret" ++ t :=
  ⟨"\x7b sleep .8; echo ",
    "; \x7d | script -q /dev/null ssh-add /keys/id_rsa", by decide⟩

/-- C2 amended: the command string handed to the process-spawning call does
contain the passphrase, as the text echoed into the pseudo-terminal before
the pipe; the stage after the pipe, the script/ssh-add invocation that the
key agent actually sees, is built from the key path alone, so the
passphrase reaches ssh-add through the pseudo-terminal input and not
through the argument list of the ssh-add invocation itself. -/
theorem c2_passphrase_placement (passphrase path : String) :
    sshAddCommand passphrase path =
      "\x7b sleep .8; echo " ++ passphrase ++ ("; \x7d | " ++ sshAddStage path) ∧
    ∃ s t : String, sshAddCommand passphrase path = s ++ passphrase ++ t := by
  have hB : ("; \x7d | " ++ "script -q /dev/null ssh-add " : String) =
      "; \x7d | script -q /dev/null ssh-add " := by decide
  constructor
  · unfold sshAddCommand sshAddStage
    have h2 : ("; \x7d | " ++ ("script -q /dev/null ssh-add " ++ path) : String) =
        "; \x7d | script -q /dev/null ssh-add " ++ path := by
      rw [← String.append_assoc, hB]
    rw [h2]
    simp [String.append_assoc]
  · exact ⟨"\x7b sleep .8; echo ",
      "; \x7d | script -q /dev/null ssh-add " ++ path,
      String.append_assoc _ _ _⟩

/-- A run whose session acquisition fails: BW_SESSION unset, the login
check reports not logged in, and bw --raw login exits non-zero. -/
def envSessionFails : RunEnv :=
  { csvRows := some [("item1", "/keys/id_rsa")],
    sessionEnv :=
      { envSession := none, loginCheckReturncode := 1,
        loginResult := .error (), unlockResult := .error () },
    syncOk := true,
    listResult := .ok [],
    world := ⟨fun _ => false, fun _ _ => false⟩,
    lockOk := true }

/-- C3 counterexample: in a run whose session acquisition fails, the
teardown lock runs zero times, not exactly once as the claim states: the
finally block guards the lock behind a truthy session variable. -/
theorem c3_counterexample :
    (main envSessionFails).outcome = .fatalLogged ∧
      (main envSessionFails).lockCount = 0 :=
  ⟨rfl, rfl⟩

/-- C3 amended: the teardown lock runs exactly once whenever a truthy (non
empty) session token was acquired, whether the rest of the run succeeds or
fails; it runs zero times when session acquisition failed. -/
theorem c3_teardown_guarded (env : RunEnv) (rows : List (String × String))
    (h : env.csvRows = some rows) :
    (∀ session, (get_session env.sessionEnv).result = .ok session →
        session ≠ "" → (main env).lockCount = 1) ∧
    ((get_session env.sessionEnv).result = .error () →
        (main env).lockCount = 0) := by
  constructor
  · intro session hst hne
    have hb : (session == "") = false := beq_eq_false_iff_ne.mpr hne
    by_cases hs : env.syncOk
    · cases hl : env.listResult with
      | error e =>
        simp [main, h, hst, hs, folder_items, hl, finallyLock_lockCount, hb]
      | ok items =>
        simp [main, h, hst, hs, folder_items, hl, finallyLock_lockCount, hb]
    · simp [main, h, hst, hs, finallyLock_lockCount, hb]
  · intro hst
    simp [main, h, hst]

/-- A run that acquires a session from the environment and then succeeds
end to end. -/
def envC3 : RunEnv :=
  { csvRows := some [],
    sessionEnv :=
      { envSession := some "tok", loginCheckReturncode := 0,
        loginResult := .error (), unlockResult := .error () },
    syncOk := true,
    listResult := .ok [],
    world := ⟨fun _ => false, fun _ _ => false⟩,
    lockOk := true }

/-- Witness for the amended C3: a successful run with a truthy session
locks exactly once. -/
theorem c3_teardown_guarded_witness :
    envC3.csvRows = some [] ∧
    (get_session envC3.sessionEnv).result = .ok "tok" ∧
    "tok" ≠ "" ∧
    (main envC3).lockCount = 1 :=
  ⟨rfl, rfl, by decide,
    (c3_teardown_guarded envC3 [] rfl).1 "tok" rfl (by decide)⟩

/-- C4: failures of session acquisition, sync, or item listing are fatal:
after a failed session acquisition nothing else runs and the lock is
skipped; after a failed sync the listing and the import loop never run;
after a failed listing the import loop never runs; in each case only the
teardown may follow and the run ends with the error logged (or unhandled
when the teardown lock itself then fails). -/
theorem c4_fatal_errors_abort (env : RunEnv) (rows : List (String × String))
    (h : env.csvRows = some rows) :
    ((get_session env.sessionEnv).result = .error () →
        (main env).syncAttempted = false ∧ (main env).listAttempted = false ∧
        (main env).addKeysRan = false ∧ (main env).importEvents = [] ∧
        (main env).lockCount = 0 ∧ (main env).outcome = .fatalLogged) ∧
    (∀ session, (get_session env.sessionEnv).result = .ok session →
        env.syncOk = false →
        (main env).listAttempted = false ∧ (main env).addKeysRan = false ∧
        (main env).importEvents = [] ∧
        ((main env).outcome = .fatalLogged ∨
          (main env).outcome = .unhandled)) ∧
    (∀ session, (get_session env.sessionEnv).result = .ok session →
        env.syncOk = true → env.listResult = .error () →
        (main env).addKeysRan = false ∧ (main env).importEvents = [] ∧
        ((main env).outcome = .fatalLogged ∨
          (main env).outcome = .unhandled)) := by
  refine ⟨?_, ?_, ?_⟩
  · intro hst
    simp [main, h, hst]
  · intro session hst hs
    refine ⟨?_, ?_, ?_, ?_⟩
    · simp [main, h, hst, hs, finallyLock_listAttempted]
    · simp [main, h, hst, hs, finallyLock_addKeysRan]
    · simp [main, h, hst, hs, finallyLock_importEvents]
    · simp [main, h, hst, hs]
      exact finallyLock_outcome env session _
  · intro session hst hs hl
    refine ⟨?_, ?_, ?_⟩
    · simp [main, h, hst, hs, folder_items, hl, finallyLock_addKeysRan]
    · simp [main, h, hst, hs, folder_items, hl, finallyLock_importEvents]
    · simp [main, h, hst, hs, folder_items, hl]
      exact finallyLock_outcome env session _

/-- A run whose session acquisition fails with items available, used to
witness the fatal-error claim. -/
def envC4 : RunEnv :=
  { csvRows := some [("item1", "/keys/id_rsa")],
    sessionEnv :=
      { envSession := none, loginCheckReturncode := 1,
        loginResult := .error (), unlockResult := .error () },
    syncOk := true,
    listResult := .ok [⟨"item1", "k1", ⟨some "secret"⟩⟩],
    world := ⟨fun _ => true, fun _ _ => true⟩,
    lockOk := true }

/-- Witness for C4: with a failed login, no sync, no listing, no import
loop, no lock, and a logged fatal outcome. -/
theorem c4_fatal_errors_abort_witness :
    envC4.csvRows = some [("item1", "/keys/id_rsa")] ∧
    (get_session envC4.sessionEnv).result = .error () ∧
    (main envC4).syncAttempted = false ∧ (main envC4).listAttempted = false ∧
    (main envC4).lockCount = 0 ∧ (main envC4).outcome = .fatalLogged := by
  have hh := (c4_fatal_errors_abort envC4 [("item1", "/keys/id_rsa")] rfl).1 rfl
  exact ⟨rfl, rfl, hh.1, hh.2.1, hh.2.2.2.2.1, hh.2.2.2.2.2⟩

/-- C5: an item with a mapping entry, a non-null passphrase, and an
existing file at the mapped path yields exactly one import invocation in
its slot of the event list, carrying exactly that passphrase and that
path, and the event list pairs the items one to one. -/
theorem c5_import_exactly_once (w : World) (session : String) (m : KeyMapping)
    (items : List VaultItem) (i : Nat) (item : VaultItem) (path pass : String)
    (hitem : items.get? i = some item)
    (hm : lookupPath m item.id = some path)
    (hp : item.login.password = some pass)
    (hf : w.fsExists path = true) :
    (add_ssh_keys w session items m).length = items.length ∧
    (add_ssh_keys w session items m).get? i =
      some (.importKey pass path (w.importOk pass path)) := by
  refine ⟨add_ssh_keys_length w session items m, ?_⟩
  rw [add_ssh_keys_get, hitem]
  simp [processItem, hm, hp, hf]

/-- Witness for C5, the scenario of the spec: one mapped item with
passphrase secret and an existing file at /keys/id_rsa produces exactly the
one import event with that passphrase and path. -/
theorem c5_import_exactly_once_witness :
    ([(⟨"item1", "k1", ⟨some "secret"⟩⟩ : VaultItem)].get? 0 =
        some ⟨"item1", "k1", ⟨some "secret"⟩⟩) ∧
    lookupPath [("item1", "/keys/id_rsa")] "item1" = some "/keys/id_rsa" ∧
    (⟨fun p => p == "/keys/id_rsa", fun _ _ => true⟩ : World).fsExists
        "/keys/id_rsa" = true ∧
    (add_ssh_keys ⟨fun p => p == "/keys/id_rsa", fun _ _ => true⟩ "s"
        [⟨"item1", "k1", ⟨some "secret"⟩⟩]
        [("item1", "/keys/id_rsa")]).length = 1 ∧
    (add_ssh_keys ⟨fun p => p == "/keys/id_rsa", fun _ _ => true⟩ "s"
        [⟨"item1", "k1", ⟨some "secret"⟩⟩]
        [("item1", "/keys/id_rsa")]).get? 0 =
      some (.importKey "secret" "/keys/id_rsa" true) := by
  have hh := c5_import_exactly_once
    ⟨fun p => p == "/keys/id_rsa", fun _ _ => true⟩ "s"
    [("item1", "/keys/id_rsa")] [⟨"item1", "k1", ⟨some "secret"⟩⟩] 0
    ⟨"item1", "k1", ⟨some "secret"⟩⟩ "/keys/id_rsa" "secret"
    rfl rfl rfl rfl
  exact ⟨rfl, rfl, rfl, hh.1, hh.2⟩

/-- C6: the per-item checks fire in order.  A missing mapping entry wins
over everything and prints the path-not-found message naming the item with
no import attempted; with a mapping present, a null passphrase prints the
passphrase-not-found message with no import; with both present, a missing
file prints the does-not-exist message with no import. -/
theorem c6_check_order (w : World) (m : KeyMapping) (item : VaultItem) :
    (lookupPath m item.id = none →
        processItem w m item = .pathNotFound item.name ∧
        (processItem w m item).isImport = false ∧
        (processItem w m item).message =
          some ("Path for item " ++ item.name ++ " not found")) ∧
    (∀ path, lookupPath m item.id = some path →
        item.login.password = none →
        processItem w m item = .passphraseNotFound item.name ∧
        (processItem w m item).isImport = false ∧
        (processItem w m item).message =
          some ("Passphrase not found for " ++ item.name)) ∧
    (∀ path pass, lookupPath m item.id = some path →
        item.login.password = some pass → w.fsExists path = false →
        processItem w m item = .keyMissing path ∧
        (processItem w m item).isImport = false ∧
        (processItem w m item).message =
          some ("Private key at " ++ path ++ " does not exist")) := by
  refine ⟨?_, ?_, ?_⟩
  · intro hnone
    simp [processItem, hnone, ItemEvent.isImport, ItemEvent.message]
  · intro path hpath hnopass
    simp [processItem, hpath, hnopass, ItemEvent.isImport, ItemEvent.message]
  · intro path pass hpath hpass hfs
    simp [processItem, hpath, hpass, hfs, ItemEvent.isImport, ItemEvent.message]

/-- Witness for C6, the scenario of the spec: an empty mapping and one item
named k2 yields no import and the path-not-found message for k2. -/
theorem c6_check_order_witness :
    lookupPath [] "item2" = none ∧
    processItem ⟨fun _ => false, fun _ _ => false⟩ []
        ⟨"item2", "k2", ⟨some "x"⟩⟩ = .pathNotFound "k2" ∧
    (processItem ⟨fun _ => false, fun _ _ => false⟩ []
        ⟨"item2", "k2", ⟨some "x"⟩⟩).isImport = false ∧
    (processItem ⟨fun _ => false, fun _ _ => false⟩ []
        ⟨"item2", "k2", ⟨some "x"⟩⟩).message =
      some "Path for item k2 not found" := by
  have hh := (c6_check_order ⟨fun _ => false, fun _ _ => false⟩ []
    ⟨"item2", "k2", ⟨some "x"⟩⟩).1 rfl
  exact ⟨rfl, hh.1, hh.2.1, hh.2.2⟩

/-- C7: when BW_SESSION is present in the environment, get_session returns
that token immediately with no login check, no login, and no unlock. -/
theorem c7_env_session_short_circuit (e : SessionEnv) (s : String)
    (h : e.envSession = some s) :
    get_session e = ⟨false, false, false, .ok s⟩ := by
  simp [get_session, h]

/-- Witness for C7: a concrete environment carrying a token is returned
untouched with every CLI flag false. -/
theorem c7_env_session_short_circuit_witness :
    ({ envSession := some "tok", loginCheckReturncode := 0,
       loginResult := .error (), unlockResult := .error () } :
      SessionEnv).envSession = some "tok" ∧
    get_session
        { envSession := some "tok", loginCheckReturncode := 0,
          loginResult := .error (), unlockResult := .error () } =
      ⟨false, false, false, .ok "tok"⟩ :=
  ⟨rfl, c7_env_session_short_circuit _ "tok" rfl⟩

/-- C8: without an environment token, get_session always runs the quiet
login check; a non-zero check exit leads to an interactive login and a zero
exit to an interactive unlock, and the trace returns the raw stdout result
of that command. -/
theorem c8_login_or_unlock (e : SessionEnv) (h : e.envSession = none) :
    (get_session e).loginChecked = true ∧
    (e.loginCheckReturncode ≠ 0 →
        get_session e = ⟨true, true, false, e.loginResult⟩) ∧
    (e.loginCheckReturncode = 0 →
        get_session e = ⟨true, false, true, e.unlockResult⟩) := by
  refine ⟨?_, ?_, ?_⟩
  · by_cases hc : e.loginCheckReturncode = 0 <;> simp [get_session, h, hc]
  · intro hc
    simp [get_session, h, hc]
  · intro hc
    simp [get_session, h, hc]

/-- Witness for C8: with no environment token and a failing login check,
the interactive login runs and its stdout is the result. -/
theorem c8_login_or_unlock_witness :
    ({ envSession := none, loginCheckReturncode := 1,
       loginResult := .ok "fresh", unlockResult := .error () } :
      SessionEnv).envSession = none ∧
    (1 : Nat) ≠ 0 ∧
    get_session
        { envSession := none, loginCheckReturncode := 1,
          loginResult := .ok "fresh", unlockResult := .error () } =
      ⟨true, true, false, .ok "fresh"⟩ := by
  have hh := c8_login_or_unlock
    { envSession := none, loginCheckReturncode := 1,
      loginResult := .ok "fresh", unlockResult := .error () } rfl
  exact ⟨rfl, by decide, hh.2.1 (by decide)⟩

/-- C9: a failed CSV load ends the run at once: no login check, no session
command, no sync, no listing, no import loop, no lock, and the configAbort
outcome, so no vault interaction happens at all. -/
theorem c9_csv_abort_before_vault (env : RunEnv) (h : env.csvRows = none) :
    main env =
      { loginChecked := false, sessionCmdRan := false, sessionObtained := none,
        syncAttempted := false, listAttempted := false, addKeysRan := false,
        importEvents := [], lockCount := 0, outcome := .configAbort } := by
  simp [main, h]

/-- A run whose CSV mapping file fails to load. -/
def envC9 : RunEnv :=
  { csvRows := none,
    sessionEnv :=
      { envSession := some "tok", loginCheckReturncode := 0,
        loginResult := .ok "x", unlockResult := .ok "y" },
    syncOk := true,
    listResult := .ok [],
    world := ⟨fun _ => true, fun _ _ => true⟩,
    lockOk := true }

/-- Witness for C9: the concrete run with a failed CSV load aborts with no
vault interaction. -/
theorem c9_csv_abort_before_vault_witness :
    envC9.csvRows = none ∧
    main envC9 =
      { loginChecked := false, sessionCmdRan := false, sessionObtained := none,
        syncAttempted := false, listAttempted := false, addKeysRan := false,
        importEvents := [], lockCount := 0, outcome := .configAbort } :=
  ⟨rfl, c9_csv_abort_before_vault envC9 rfl⟩

/-- C10: when everything up to and including the import loop succeeds but
the bw lock command exits non-zero, the lock error is caught nowhere, so
the run ends unhandled after exactly one lock attempt. -/
theorem c10_lock_failure_unhandled (env : RunEnv)
    (rows : List (String × String)) (session : String)
    (items : List VaultItem)
    (h : env.csvRows = some rows)
    (hst : (get_session env.sessionEnv).result = .ok session)
    (hne : session ≠ "")
    (hsync : env.syncOk = true)
    (hlist : env.listResult = .ok items)
    (hlock : env.lockOk = false) :
    (main env).outcome = .unhandled ∧ (main env).lockCount = 1 := by
  have hb : (session == "") = false := beq_eq_false_iff_ne.mpr hne
  constructor
  · simp [main, h, hst, hsync, folder_items, hlist, finallyLock,
      lock_bitwarden, hlock, hb]
  · simp [main, h, hst, hsync, folder_items, hlist, finallyLock_lockCount, hb]

/-- A fully successful run except that the final bw lock exits non-zero. -/
def envC10 : RunEnv :=
  { csvRows := some [("item1", "/keys/id_rsa")],
    sessionEnv :=
      { envSession := some "tok", loginCheckReturncode := 0,
        loginResult := .error (), unlockResult := .error () },
    syncOk := true,
    listResult := .ok [⟨"item1", "k1", ⟨some "secret"⟩⟩],
    world := ⟨fun _ => true, fun _ _ => true⟩,
    lockOk := false }

/-- Witness for C10: the concrete run whose only failure is the lock ends
unhandled after one lock attempt. -/
theorem c10_lock_failure_unhandled_witness :
    envC10.csvRows = some [("item1", "/keys/id_rsa")] ∧
    (get_session envC10.sessionEnv).result = .ok "tok" ∧
    "tok" ≠ "" ∧
    envC10.syncOk = true ∧
    envC10.lockOk = false ∧
    (main envC10).outcome = .unhandled ∧ (main envC10).lockCount = 1 := by
  have hh := c10_lock_failure_unhandled envC10 [("item1", "/keys/id_rsa")]
    "tok" [⟨"item1", "k1", ⟨some "secret"⟩⟩] rfl rfl (by decide) rfl rfl rfl
  exact ⟨rfl, rfl, by decide, rfl, rfl, hh.1, hh.2⟩

end BwSsh
